import Mathlib

/-!
Verification of the Coffin-Reborn LED-strip core: a shallow embedding of
the NeoPixel SPI encoder and DMA transfer orchestrator (src/neopixel.c,
src/neopixel.h) and of the D-SUN proximity-sensor debouncer
(dsun_sensor.c, src/dsun_sensor.h), with theorems settling the frozen
claims C1 to C10 about them.
-/

namespace CoffinReborn

/-! ## NeoPixel constants (src/neopixel.h lines 55-78) -/

/-- SPI byte pattern encoding a logical 0 color bit (neopixel.h line 55). -/
def ZERO_LED : Nat := 0xE0

/-- SPI byte pattern encoding a logical 1 color bit (neopixel.h line 56).
The source comment claims 11111000 (0xF8) but the value is 0xFC. -/
def ONE_LED : Nat := 0xFC

/-- Number of LEDs in the strip (neopixel.h line 66). -/
def NUM_LEDS : Nat := 144

/-- Count of zero pad bytes in the buffer (neopixel.h line 77). -/
def NEOPIXEL_LEADING_ZEROS : Nat := 96

/-- Total buffer size, 24 SPI bytes per LED plus padding (neopixel.h line 78). -/
def NEOPIXEL_BUFFER_SIZE : Nat := 24 * NUM_LEDS + NEOPIXEL_LEADING_ZEROS

/-! ## Color encoding (src/neopixel.c, set_led_color, lines 186-208)

The C loops run bit = 7 down to 0, storing at channel offset 7-bit the
byte ONE_LED when the bit of the channel value is set and ZERO_LED when
clear.  encBit v bit is the byte the loop body computes from
(v & (1 << bit)). -/

/-- The byte written for bit position bit of channel value v:
(v & (1 << bit)) ? ONE_LED : ZERO_LED (neopixel.c lines 198, 202, 206). -/
def encBit (v bit : Nat) : Nat :=
  if v &&& (1 <<< bit) ≠ 0 then ONE_LED else ZERO_LED

/-- The 8 bytes one channel loop of set_led_color produces, in the order
they land in the buffer: position i holds the byte for bit 7-i. -/
def encodeChannel (v : Nat) : List Nat :=
  (List.range 8).map fun i => encBit v (7 - i)

/-- The 24 bytes set_led_color writes for one LED, in buffer order:
green first, then red, then blue (neopixel.c lines 195-207). -/
def neopixel_encode (red green blue : Nat) : List Nat :=
  encodeChannel green ++ encodeChannel red ++ encodeChannel blue

/-- Map one SPI symbol back to the color bit it encodes (the inverse
direction described by the spec: ONE_LED stands for 1, ZERO_LED for 0). -/
def decodeSymbol (s : Nat) : Nat :=
  if s = ONE_LED then 1 else 0

/-- Reassemble an 8-bit channel value from its 8 symbols, MSB first. -/
def decodeChannel (l : List Nat) : Nat :=
  l.foldl (fun a s => 2 * a + decodeSymbol s) 0

/-- Decode a 24-symbol LED sequence back to (red, green, blue): green
occupies symbols 0-7, red 8-15, blue 16-23. -/
def neopixel_decode (l : List Nat) : Nat × Nat × Nat :=
  (decodeChannel ((l.drop 8).take 8),
   decodeChannel (l.take 8),
   decodeChannel ((l.drop 16).take 8))

/-! ## The frame buffer writes of set_led_color

writeBitsAux base v buf n performs the first n iterations of one channel
loop of set_led_color: iteration i stores encBit v (7-i) at absolute
buffer index base + i.  writeChannel runs all 8. -/

def writeBitsAux (base v : Nat) (buf : List Nat) : Nat → List Nat
  | 0 => buf
  | i + 1 => (writeBitsAux base v buf i).set (base + i) (encBit v (7 - i))

/-- One channel loop of set_led_color (neopixel.c lines 197-199, 201-203,
205-207): 8 stores at indices base..base+7. -/
def writeChannel (base v : Nat) (buf : List Nat) : List Nat :=
  writeBitsAux base v buf 8

/-- set_led_color (neopixel.c lines 186-208): guard led_index >= NUM_LEDS
returns the buffer unchanged; otherwise green lands at led_index*24,
red at led_index*24+8, blue at led_index*24+16. -/
def set_led_color (led_index red green blue : Nat) (buf : List Nat) : List Nat :=
  if NUM_LEDS ≤ led_index then buf
  else
    writeChannel (led_index * 24 + 16) blue
      (writeChannel (led_index * 24 + 8) red
        (writeChannel (led_index * 24) green buf))

/-! ## DMA transfer model (src/neopixel.c lines 65, 97-101, 123-129,
238-252)

neopixel_send_data clears the volatile flag dma_complete, calls
DMAC_ChannelTransfer to arm the DMA engine, spins in while(!dma_complete)
until the interrupt callback sets the flag, and finally busy-waits 100
microseconds for the reset gap.  The hardware interrupt arrivals are the
environment: events n is the event (if any) delivered during the n-th
spin of the wait loop. -/

/-- DMA transfer event kinds delivered to the callback. -/
inductive DMAC_TRANSFER_EVENT
  | complete
  | error
deriving DecidableEq

/-- DMA_0_Callback (neopixel.c lines 97-101): sets the flag on a
COMPLETE event and leaves it untouched on any other event. -/
def DMA_0_Callback (event : DMAC_TRANSFER_EVENT) (dma_complete : Bool) :
    Bool :=
  if event = DMAC_TRANSFER_EVENT.complete then true else dma_complete

/-- The value of dma_complete after n spins of the wait loop, starting
from the false that neopixel_send_data assigns (line 239), with the
callback applied to each delivered event. -/
def dmaFlagAfter (events : Nat → Option DMAC_TRANSFER_EVENT) : Nat → Bool
  | 0 => false
  | n + 1 =>
    match events n with
    | some e => DMA_0_Callback e (dmaFlagAfter events n)
    | none => dmaFlagAfter events n

/-- The wait loop while(!dma_complete) terminates for this event
delivery. -/
def sendReturns (events : Nat → Option DMAC_TRANSFER_EVENT) : Prop :=
  ∃ n, dmaFlagAfter events n = true

/-- delay_microseconds (neopixel.c lines 123-129) busy-waits on TC0
until the counter reaches us, so the elapsed time in microseconds is
us. -/
def delay_microseconds (us : Nat) : Nat := us

/-- What a terminating neopixel_send_data call did: how many wait-loop
spins ran before dma_complete was observed true, and the reset-gap
busy-wait (in microseconds) executed after the loop and before the
return. -/
structure SendOutcome where
  wait_iterations : Nat
  reset_gap_us : Nat
deriving DecidableEq

/-- neopixel_send_data (neopixel.c lines 238-252), run with fuel bounding
the wait-loop spins: returns at the first spin count at which the flag
is true, then performs delay_microseconds 100; none when the flag never
becomes true within fuel spins (the loop is still spinning). -/
def neopixel_send_data_run (events : Nat → Option DMAC_TRANSFER_EVENT)
    (fuel : Nat) : Option SendOutcome :=
  ((List.range (fuel + 1)).find? fun n => dmaFlagAfter events n).map
    fun n => { wait_iterations := n, reset_gap_us := delay_microseconds 100 }

/-- The globals neopixel_send_data touches before entering its wait
loop: the completion flag, and (as environment bookkeeping) the count of
DMA transfers started so far by DMAC_ChannelTransfer calls. -/
structure DmaEnv where
  dma_complete : Bool
  transfers_started : Nat
deriving DecidableEq

/-- The pre-wait effect of neopixel_send_data (lines 239-245): assign
dma_complete = false, then call DMAC_ChannelTransfer, unconditionally —
the function inspects no state before arming the DMA engine. -/
def neopixel_send_begin (s : DmaEnv) : DmaEnv :=
  { dma_complete := false, transfers_started := s.transfers_started + 1 }

/-- Event delivery in which every spin sees a COMPLETE event. -/
def allComplete : Nat → Option DMAC_TRANSFER_EVENT :=
  fun _ => some DMAC_TRANSFER_EVENT.complete

/-- Event delivery in which every spin sees an ERROR event and a
COMPLETE event never arrives. -/
def allError : Nat → Option DMAC_TRANSFER_EVENT :=
  fun _ => some DMAC_TRANSFER_EVENT.error

/-! ## D-SUN sensor model (dsun_sensor.c, src/dsun_sensor.h)

The file-scope variables current_state, previous_state,
last_change_time and the flag set by dsun_sensor_init form the state,
together with the static time_counter inside get_system_time_ms.  All
counters are uint32_t, modeled as Nat reduced mod 2^32.  The raw pin
reading consumed by each poll is the input of the step function. -/

/-- dsun_state_t (dsun_sensor.h lines 89-93). -/
inductive dsun_state_t
  | noObject
  | objectDetected
  | stateUnknown
deriving DecidableEq

/-- DSUN_DEBOUNCE_MS (dsun_sensor.h line 68). -/
def DSUN_DEBOUNCE_MS : Nat := 50

/-- 2^32, the modulus of uint32_t arithmetic. -/
def U32_MOD : Nat := 4294967296

/-- uint32_t subtraction a - b. -/
def u32_sub (a b : Nat) : Nat :=
  (a + (U32_MOD - b % U32_MOD)) % U32_MOD

/-- The sensor state: current_state, previous_state, last_change_time,
the static time_counter of get_system_time_ms, and sensor_ready, which
models the C flag (named after the init routine) that dsun_sensor_init
sets to true and that guards every query. -/
structure DsunState where
  current_state : dsun_state_t
  previous_state : dsun_state_t
  last_change_time : Nat
  time_counter : Nat
  sensor_ready : Bool
deriving DecidableEq

/-- get_system_time_ms (dsun_sensor.c lines 76-82): increments the
static uint32_t counter and returns counter / 1000 as the millisecond
time; the pair is (new counter, returned time). -/
def get_system_time_ms (counter : Nat) : Nat × Nat :=
  ((counter + 1) % U32_MOD, ((counter + 1) % U32_MOD) / 1000)

/-- dsun_get_state (dsun_sensor.c lines 138-166): the debounced poll.
Returns unchanged state and DSUN_STATE_UNKNOWN when not yet set up;
otherwise reads the raw pin, computes the candidate state, and accepts a
change only when current_time - last_change_time >= DSUN_DEBOUNCE_MS
(uint32 arithmetic); on a stable reading it refreshes
last_change_time. -/
def dsun_get_state (raw : Bool) (s : DsunState) : DsunState × dsun_state_t :=
  if s.sensor_ready = false then (s, dsun_state_t.stateUnknown)
  else
    let new_state := if raw then dsun_state_t.objectDetected
      else dsun_state_t.noObject
    let tc := (get_system_time_ms s.time_counter).1
    let current_time := (get_system_time_ms s.time_counter).2
    if new_state ≠ s.current_state then
      if DSUN_DEBOUNCE_MS ≤ u32_sub current_time s.last_change_time then
        ({ current_state := new_state, previous_state := s.current_state,
           last_change_time := current_time, time_counter := tc,
           sensor_ready := true }, new_state)
      else ({ s with time_counter := tc }, s.current_state)
    else
      ({ s with last_change_time := current_time, time_counter := tc },
        s.current_state)

/-- dsun_sensor_init (dsun_sensor.c lines 101-109): resets the state
variables, marks the sensor ready, and performs one initial poll (the
call dsun_get_state() at line 108) with the raw reading of that moment.
The static time_counter is not reset; at boot it is 0. -/
def dsun_sensor_init (raw : Bool) (counter : Nat) : DsunState :=
  (dsun_get_state raw
    { current_state := dsun_state_t.stateUnknown,
      previous_state := dsun_state_t.stateUnknown,
      last_change_time := 0, time_counter := counter,
      sensor_ready := true }).1

/-- dsun_object_detected (dsun_sensor.c lines 179-181): polls and
compares the returned state with DSUN_OBJECT_DETECTED. -/
def dsun_object_detected (raw : Bool) (s : DsunState) : DsunState × Bool :=
  ((dsun_get_state raw s).1,
    (dsun_get_state raw s).2 == dsun_state_t.objectDetected)

/-- dsun_object_just_detected (dsun_sensor.c lines 194-202): polls, then
reads the previous_state global as updated by that poll and reports
previous == DSUN_NO_OBJECT && current == DSUN_OBJECT_DETECTED. -/
def dsun_object_just_detected (raw : Bool) (s : DsunState) :
    DsunState × Bool :=
  ((dsun_get_state raw s).1,
    (dsun_get_state raw s).1.previous_state == dsun_state_t.noObject &&
      (dsun_get_state raw s).2 == dsun_state_t.objectDetected)

/-- A sequence of polls, each consuming one raw reading. -/
def runPolls (s : DsunState) (raws : List Bool) : DsunState :=
  raws.foldl (fun st r => (dsun_get_state r st).1) s

/-! ## Helper lemmas about the encoder -/

theorem length_encodeChannel (v : Nat) : (encodeChannel v).length = 8 := by
  simp [encodeChannel]

set_option maxRecDepth 8192 in
theorem decodeChannel_encodeChannel_fin :
    ∀ v : Fin 256, decodeChannel (encodeChannel v.val) = v.val := by decide

theorem decodeChannel_encodeChannel {v : Nat} (h : v < 256) :
    decodeChannel (encodeChannel v) = v :=
  decodeChannel_encodeChannel_fin ⟨v, h⟩

theorem neopixel_decode_encode {r g b : Nat} (hr : r < 256) (hg : g < 256)
    (hb : b < 256) : neopixel_decode (neopixel_encode r g b) = (r, g, b) := by
  have hg8 := length_encodeChannel g
  have hr8 := length_encodeChannel r
  have hb8 := length_encodeChannel b
  unfold neopixel_decode neopixel_encode
  rw [List.append_assoc, List.drop_left' hg8, List.take_left' hr8,
    List.take_left' hg8, show (16 : Nat) = 8 + 8 from rfl, ← List.drop_drop,
    List.drop_left' hg8, List.drop_left' hr8,
    List.take_of_length_le (le_of_eq hb8)]
  rw [decodeChannel_encodeChannel hr, decodeChannel_encodeChannel hg,
    decodeChannel_encodeChannel hb]

theorem length_neopixel_encode (r g b : Nat) :
    (neopixel_encode r g b).length = 24 := by
  simp [neopixel_encode, length_encodeChannel]

/-! ## Helper lemmas about the buffer writes -/

theorem list_getElem?_drop {α : Type} :
    ∀ (i : Nat) (l : List α) (j : Nat), (l.drop i)[j]? = l[i + j]?
  | 0, _, _ => by simp
  | i + 1, [], j => by simp
  | i + 1, a :: l, j => by
    rw [List.drop_succ_cons, list_getElem?_drop i l j,
      show i + 1 + j = (i + j) + 1 by omega, List.getElem?_cons_succ]

theorem length_writeBitsAux (base v : Nat) (buf : List Nat) :
    ∀ n, (writeBitsAux base v buf n).length = buf.length
  | 0 => rfl
  | n + 1 => by
    rw [writeBitsAux, List.length_set, length_writeBitsAux base v buf n]

theorem getElem?_writeBitsAux_lt (base v : Nat) (buf : List Nat) {j : Nat}
    (hj : j < base) :
    ∀ n, (writeBitsAux base v buf n)[j]? = buf[j]?
  | 0 => rfl
  | n + 1 => by
    rw [writeBitsAux, List.getElem?_set_ne (by omega),
      getElem?_writeBitsAux_lt base v buf hj n]

theorem getElem?_writeBitsAux_ge (base v : Nat) (buf : List Nat) {j : Nat} :
    ∀ n, base + n ≤ j → (writeBitsAux base v buf n)[j]? = buf[j]?
  | 0, _ => rfl
  | n + 1, h => by
    rw [writeBitsAux, List.getElem?_set_ne (by omega),
      getElem?_writeBitsAux_ge base v buf n (by omega)]

theorem getElem?_writeBitsAux_in (base v : Nat) (buf : List Nat) :
    ∀ n k, k < n → base + k < buf.length →
      (writeBitsAux base v buf n)[base + k]? = some (encBit v (7 - k))
  | n + 1, k, hk, hlen => by
    rw [writeBitsAux]
    by_cases hkn : k = n
    · subst hkn
      exact List.getElem?_set_self (by rw [length_writeBitsAux]; exact hlen)
    · rw [List.getElem?_set_ne (by omega),
        getElem?_writeBitsAux_in base v buf n k (by omega) hlen]

theorem length_writeChannel (base v : Nat) (buf : List Nat) :
    (writeChannel base v buf).length = buf.length :=
  length_writeBitsAux base v buf 8

theorem getElem?_writeChannel_out (base v : Nat) (buf : List Nat) {j : Nat}
    (h : j < base ∨ base + 8 ≤ j) :
    (writeChannel base v buf)[j]? = buf[j]? := by
  rcases h with h | h
  · exact getElem?_writeBitsAux_lt base v buf h 8
  · exact getElem?_writeBitsAux_ge base v buf 8 h

theorem getElem?_writeChannel_in (base v : Nat) (buf : List Nat) {k : Nat}
    (hk : k < 8) (hlen : base + k < buf.length) :
    (writeChannel base v buf)[base + k]? = some (encBit v (7 - k)) :=
  getElem?_writeBitsAux_in base v buf 8 k hk hlen

theorem length_set_led_color (led_index red green blue : Nat)
    (buf : List Nat) :
    (set_led_color led_index red green blue buf).length = buf.length := by
  unfold set_led_color
  by_cases h : NUM_LEDS ≤ led_index
  · rw [if_pos h]
  · rw [if_neg h, length_writeChannel, length_writeChannel,
      length_writeChannel]

theorem getElem?_set_led_color_out (led_index red green blue : Nat)
    (buf : List Nat) {j : Nat}
    (h : j < led_index * 24 ∨ led_index * 24 + 24 ≤ j) :
    (set_led_color led_index red green blue buf)[j]? = buf[j]? := by
  unfold set_led_color
  by_cases hg : NUM_LEDS ≤ led_index
  · rw [if_pos hg]
  · rw [if_neg hg,
      getElem?_writeChannel_out _ _ _ (by omega),
      getElem?_writeChannel_out _ _ _ (by omega),
      getElem?_writeChannel_out _ _ _ (by omega)]

theorem getElem?_encodeChannel (v : Nat) {k : Nat} (hk : k < 8) :
    (encodeChannel v)[k]? = some (encBit v (7 - k)) := by
  rw [encodeChannel, List.getElem?_map, List.getElem?_range hk, Option.map_some']

theorem getElem?_set_led_color_in (led_index red green blue : Nat)
    (buf : List Nat) {k : Nat} (hi : led_index < NUM_LEDS) (hk : k < 24)
    (hlen : led_index * 24 + 24 ≤ buf.length) :
    (set_led_color led_index red green blue buf)[led_index * 24 + k]? =
      (neopixel_encode red green blue)[k]? := by
  unfold set_led_color neopixel_encode
  rw [if_neg (by omega)]
  by_cases h8 : k < 8
  · rw [getElem?_writeChannel_out _ _ _ (by omega),
      getElem?_writeChannel_out _ _ _ (by omega),
      getElem?_writeChannel_in _ _ _ h8 (by omega),
      List.getElem?_append_left (by simp [length_encodeChannel]; omega),
      List.getElem?_append_left (by rw [length_encodeChannel]; omega),
      getElem?_encodeChannel _ h8]
  · by_cases h16 : k < 16
    · have hsplit : led_index * 24 + k = led_index * 24 + 8 + (k - 8) := by
        omega
      rw [hsplit, getElem?_writeChannel_out _ _ _ (by omega),
        getElem?_writeChannel_in _ _ _ (by omega)
          (by rw [length_writeChannel]; omega),
        List.getElem?_append_left (by simp [length_encodeChannel]; omega),
        List.getElem?_append_right (by rw [length_encodeChannel]; omega),
        length_encodeChannel, getElem?_encodeChannel _ (by omega)]
    · have hsplit : led_index * 24 + k = led_index * 24 + 16 + (k - 16) := by
        omega
      rw [hsplit, getElem?_writeChannel_in _ _ _ (by omega)
          (by rw [length_writeChannel, length_writeChannel]; omega),
        List.getElem?_append_right (by simp [length_encodeChannel]; omega),
        getElem?_encodeChannel _ (by simp [length_encodeChannel]; omega)]
      simp [length_encodeChannel]

/-! ## Claim theorems (encoder) -/

/-- C4: for every color c of three 8-bit channels, the 24-symbol sequence
set_led_color emits (green MSB to LSB, then red, then blue, set bits as
ONE_LED and clear bits as ZERO_LED) round-trips: it has length exactly 24
and decode (encode c) = c. -/
theorem C4_encode_decode_roundtrip (r g b : Nat) (hr : r < 256)
    (hg : g < 256) (hb : b < 256) :
    (neopixel_encode r g b).length = 24 ∧
      neopixel_decode (neopixel_encode r g b) = (r, g, b) :=
  ⟨length_neopixel_encode r g b, neopixel_decode_encode hr hg hb⟩

/-- C4 witness: the round trip at the concrete color (200, 100, 3). -/
theorem C4_witness :
    (neopixel_encode 200 100 3).length = 24 ∧
      neopixel_decode (neopixel_encode 200 100 3) = (200, 100, 3) :=
  C4_encode_decode_roundtrip 200 100 3 (by decide) (by decide) (by decide)

/-- C7: set_led_color with an index at or beyond NUM_LEDS is a silent
no-op: the early-return guard leaves the buffer byte-for-byte unchanged. -/
theorem C7_out_of_range_noop (led_index red green blue : Nat)
    (buf : List Nat) (h : NUM_LEDS ≤ led_index) :
    set_led_color led_index red green blue buf = buf := by
  simp [set_led_color, h]

/-- C7 witness: index 144 (the first out-of-range index) on a tiny
concrete buffer. -/
theorem C7_witness : set_led_color 144 255 17 3 [9, 9, 9] = [9, 9, 9] :=
  C7_out_of_range_noop 144 255 17 3 [9, 9, 9] (by decide)

/-- The buffer slice written for LED led_index equals the encoded color,
stated as a take/drop slice. -/
theorem slice_set_led_color (led_index red green blue : Nat)
    (buf : List Nat) (hi : led_index < NUM_LEDS)
    (hlen : led_index * 24 + 24 ≤ buf.length) :
    ((set_led_color led_index red green blue buf).drop
        (led_index * 24)).take 24 = neopixel_encode red green blue := by
  apply List.ext_getElem?
  intro n
  by_cases hn : n < 24
  · rw [List.getElem?_take_of_lt hn, list_getElem?_drop,
      getElem?_set_led_color_in led_index red green blue buf hi hn hlen]
  · rw [List.getElem?_eq_none, List.getElem?_eq_none]
    · rw [length_neopixel_encode]; omega
    · rw [List.length_take, List.length_drop, length_set_led_color]; omega

/-- C5: starting from any full-size buffer, setColor(0,255,0,0) then
setColor(1,0,255,0) leaves a stream whose first 24 symbols decode to
(255,0,0), whose next 24 decode to (0,255,0), and whose symbols from
index 48 on (the remaining LEDs and the padding) are unchanged. -/
theorem C5_two_setcolors_stream (buf : List Nat)
    (hlen : buf.length = NEOPIXEL_BUFFER_SIZE) :
    neopixel_decode
        ((set_led_color 1 0 255 0 (set_led_color 0 255 0 0 buf)).take 24)
      = (255, 0, 0) ∧
    neopixel_decode
        (((set_led_color 1 0 255 0 (set_led_color 0 255 0 0 buf)).drop
          24).take 24) = (0, 255, 0) ∧
    ∀ j, 48 ≤ j →
      (set_led_color 1 0 255 0 (set_led_color 0 255 0 0 buf))[j]? =
        buf[j]? := by
  have hlen1 : (set_led_color 0 255 0 0 buf).length = NEOPIXEL_BUFFER_SIZE := by
    rw [length_set_led_color, hlen]
  refine ⟨?_, ?_, ?_⟩
  · have htake :
        (set_led_color 1 0 255 0 (set_led_color 0 255 0 0 buf)).take 24 =
          neopixel_encode 255 0 0 := by
      apply List.ext_getElem?
      intro n
      by_cases hn : n < 24
      · rw [List.getElem?_take_of_lt hn,
          getElem?_set_led_color_out 1 0 255 0 _ (by omega)]
        have h := getElem?_set_led_color_in 0 255 0 0 buf
          (by decide : (0 : Nat) < NUM_LEDS) hn
          (by rw [hlen]; decide)
        simpa using h
      · rw [List.getElem?_eq_none, List.getElem?_eq_none]
        · rw [length_neopixel_encode]; omega
        · rw [List.length_take, length_set_led_color, hlen1]; omega
    rw [htake]
    exact neopixel_decode_encode (by decide) (by decide) (by decide)
  · have hdrop :
        ((set_led_color 1 0 255 0 (set_led_color 0 255 0 0 buf)).drop
            24).take 24 = neopixel_encode 0 255 0 := by
      have h := slice_set_led_color 1 0 255 0
        (set_led_color 0 255 0 0 buf) (by decide) (by rw [hlen1]; decide)
      simpa using h
    rw [hdrop]
    exact neopixel_decode_encode (by decide) (by decide) (by decide)
  · intro j hj
    rw [getElem?_set_led_color_out 1 0 255 0 _ (by omega),
      getElem?_set_led_color_out 0 255 0 0 _ (by omega)]

/-- C5 witness: the claim instantiated at the all-zero full-size buffer. -/
theorem C5_witness :
    neopixel_decode
        ((set_led_color 1 0 255 0
          (set_led_color 0 255 0 0
            (List.replicate NEOPIXEL_BUFFER_SIZE 0))).take 24)
      = (255, 0, 0) ∧
    neopixel_decode
        (((set_led_color 1 0 255 0
          (set_led_color 0 255 0 0
            (List.replicate NEOPIXEL_BUFFER_SIZE 0))).drop 24).take 24)
      = (0, 255, 0) ∧
    ∀ j, 48 ≤ j →
      (set_led_color 1 0 255 0
        (set_led_color 0 255 0 0
          (List.replicate NEOPIXEL_BUFFER_SIZE 0)))[j]? =
        (List.replicate NEOPIXEL_BUFFER_SIZE (0 : Nat))[j]? :=
  C5_two_setcolors_stream (List.replicate NEOPIXEL_BUFFER_SIZE 0)
    (List.length_replicate NEOPIXEL_BUFFER_SIZE 0)

/-- C6 counterexample: the claim says the padding zero-symbols precede
the LED data, so buffer positions 0..95 would stay zero and LED 0 would
start at position 96.  In the code LED 0 starts at position 0: after
setColor(0,255,0,0) on the all-zero buffer, position 8 (inside the
alleged leading-padding region) holds ONE_LED, not a zero pad byte. -/
theorem C6_counterexample :
    (set_led_color 0 255 0 0
        (List.replicate NEOPIXEL_BUFFER_SIZE 0))[8]? = some ONE_LED ∧
      8 < NEOPIXEL_LEADING_ZEROS ∧ ONE_LED ≠ 0 := by
  refine ⟨?_, by decide, by decide⟩
  have h := getElem?_set_led_color_in 0 255 0 0
    (List.replicate NEOPIXEL_BUFFER_SIZE 0)
    (by decide : (0 : Nat) < NUM_LEDS) (by decide : (8 : Nat) < 24)
    (by rw [List.length_replicate]; decide)
  simp only [Nat.zero_mul, Nat.zero_add] at h
  rw [h]
  decide

/-- C6 (amended): the buffer length is exactly NUM_LEDS * 24 + padding
and is preserved by every set_led_color, but the padding trails: the LED
data occupies positions 0..NUM_LEDS*24-1 and no set_led_color write ever
touches a position at or beyond NUM_LEDS * 24. -/
theorem C6_buffer_size_trailing_padding (led_index red green blue : Nat)
    (buf : List Nat) (hlen : buf.length = NEOPIXEL_BUFFER_SIZE) :
    NEOPIXEL_BUFFER_SIZE = NUM_LEDS * 24 + NEOPIXEL_LEADING_ZEROS ∧
    (set_led_color led_index red green blue buf).length =
      NEOPIXEL_BUFFER_SIZE ∧
    ∀ j, NUM_LEDS * 24 ≤ j →
      (set_led_color led_index red green blue buf)[j]? = buf[j]? := by
  refine ⟨by decide, by rw [length_set_led_color, hlen], ?_⟩
  intro j hj
  by_cases hg : NUM_LEDS ≤ led_index
  · simp [set_led_color, hg]
  · exact getElem?_set_led_color_out led_index red green blue buf
      (Or.inr (by simp [NUM_LEDS] at hg hj ⊢; omega))

/-- C6 witness: the amended claim at a concrete call on the all-zero
buffer. -/
theorem C6_witness :
    NEOPIXEL_BUFFER_SIZE = NUM_LEDS * 24 + NEOPIXEL_LEADING_ZEROS ∧
    (set_led_color 3 1 2 5
        (List.replicate NEOPIXEL_BUFFER_SIZE 0)).length =
      NEOPIXEL_BUFFER_SIZE ∧
    ∀ j, NUM_LEDS * 24 ≤ j →
      (set_led_color 3 1 2 5 (List.replicate NEOPIXEL_BUFFER_SIZE 0))[j]? =
        (List.replicate NEOPIXEL_BUFFER_SIZE (0 : Nat))[j]? :=
  C6_buffer_size_trailing_padding 3 1 2 5
    (List.replicate NEOPIXEL_BUFFER_SIZE 0)
    (List.length_replicate NEOPIXEL_BUFFER_SIZE 0)

/-! ## Helper lemmas about the DMA wait loop -/

theorem dmaFlagAfter_eq_false (events : Nat → Option DMAC_TRANSFER_EVENT)
    (h : ∀ n e, events n = some e → e ≠ DMAC_TRANSFER_EVENT.complete) :
    ∀ n, dmaFlagAfter events n = false
  | 0 => rfl
  | n + 1 => by
    have ih := dmaFlagAfter_eq_false events h n
    rcases hev : events n with _ | e
    · simp [dmaFlagAfter, hev, ih]
    · simp [dmaFlagAfter, hev, DMA_0_Callback, h n e hev, ih]

theorem dmaFlagAfter_true_of_complete
    (events : Nat → Option DMAC_TRANSFER_EVENT) :
    ∀ n, dmaFlagAfter events n = true →
      ∃ m, m < n ∧ events m = some DMAC_TRANSFER_EVENT.complete
  | 0, h => by simp [dmaFlagAfter] at h
  | n + 1, h => by
    rcases hev : events n with _ | e
    · simp only [dmaFlagAfter, hev] at h
      obtain ⟨m, hm, hc⟩ := dmaFlagAfter_true_of_complete events n h
      exact ⟨m, by omega, hc⟩
    · simp only [dmaFlagAfter, hev, DMA_0_Callback] at h
      by_cases hc : e = DMAC_TRANSFER_EVENT.complete
      · exact ⟨n, Nat.lt_succ_self n, hc ▸ hev⟩
      · rw [if_neg hc] at h
        obtain ⟨m, hm, hc2⟩ := dmaFlagAfter_true_of_complete events n h
        exact ⟨m, by omega, hc2⟩

/-! ## Claim theorems (transfer orchestrator) -/

/-- C1 counterexample: with a transfer still in flight (dma_complete
false, one transfer started), a second call to neopixel_send_data is not
rejected: its pre-wait code immediately starts a second DMA transfer
(the started count becomes 2, not 1). -/
theorem C1_counterexample :
    (neopixel_send_begin
        { dma_complete := false, transfers_started := 1 }).transfers_started
      = 2 ∧ (2 : Nat) ≠ 1 := by
  exact ⟨rfl, by decide⟩

/-- C1 (amended): a send issued while the previous transfer is still
Transmitting (completion flag false) is not rejected and not queued: the
function performs no state check, unconditionally clears the flag and
starts a new DMA transfer. -/
theorem C1_no_rejection (s : DmaEnv) (h : s.dma_complete = false) :
    (neopixel_send_begin s).transfers_started = s.transfers_started + 1 ∧
      (neopixel_send_begin s).dma_complete = false :=
  ⟨rfl, rfl⟩

/-- C1 witness: the amended claim at the concrete in-flight state. -/
theorem C1_no_rejection_witness :
    (neopixel_send_begin
        { dma_complete := false, transfers_started := 5 }).transfers_started
      = 5 + 1 ∧
    (neopixel_send_begin
        { dma_complete := false, transfers_started := 5 }).dma_complete
      = false :=
  C1_no_rejection { dma_complete := false, transfers_started := 5 } rfl

/-- C2 counterexample: when the transfer engine reports an error event
instead of completion on every wait-loop spin, the wait loop of
neopixel_send_data never exits — send does not transition out of
Transmitting and never returns, so no failure status reaches the
caller. -/
theorem C2_counterexample : ¬ sendReturns allError := by
  rintro ⟨n, hn⟩
  rw [dmaFlagAfter_eq_false allError
    (fun n e h => by simp [allError] at h; simp [← h]) n] at hn
  exact Bool.false_ne_true hn

/-- C2 (amended): for every event delivery that reports errors (or
nothing) and never a completion event, the completion flag stays false
forever, neopixel_send_data never returns for any wait-loop bound, and
the callback leaves the flag unchanged on every non-complete event;
no result or status value is surfaced (the C function returns void). -/
theorem C2_error_hangs (events : Nat → Option DMAC_TRANSFER_EVENT)
    (h : ∀ n e, events n = some e → e ≠ DMAC_TRANSFER_EVENT.complete) :
    (∀ n, dmaFlagAfter events n = false) ∧
    (∀ fuel, neopixel_send_data_run events fuel = none) ∧
    (∀ e b, e ≠ DMAC_TRANSFER_EVENT.complete → DMA_0_Callback e b = b) := by
  refine ⟨dmaFlagAfter_eq_false events h, ?_, ?_⟩
  · intro fuel
    unfold neopixel_send_data_run
    rw [List.find?_eq_none.mpr
      (fun n _ => by simp [dmaFlagAfter_eq_false events h n])]
    rfl
  · intro e b he
    simp [DMA_0_Callback, he]

/-- C2 witness: the amended claim evaluated on the all-error delivery at
concrete spin counts. -/
theorem C2_error_hangs_witness :
    dmaFlagAfter allError 3 = false ∧
      neopixel_send_data_run allError 2 = none := by
  have h := C2_error_hangs allError
    (fun n e hev => by simp [allError] at hev; simp [← hev])
  exact ⟨h.1 3, h.2.1 2⟩

/-- C3: whenever neopixel_send_data returns, the completion flag had
been set — which only a COMPLETE event from the hardware can do — and
the reset-gap busy-wait of delay_microseconds 100, at least 80
microseconds, was executed after the wait loop and before the return. -/
theorem C3_send_blocks_until_complete_then_gap
    (events : Nat → Option DMAC_TRANSFER_EVENT) (fuel : Nat)
    (out : SendOutcome)
    (h : neopixel_send_data_run events fuel = some out) :
    dmaFlagAfter events out.wait_iterations = true ∧
    (∃ m, m < out.wait_iterations ∧
      events m = some DMAC_TRANSFER_EVENT.complete) ∧
    out.reset_gap_us = delay_microseconds 100 ∧ 80 ≤ out.reset_gap_us := by
  unfold neopixel_send_data_run at h
  rcases hf : (List.range (fuel + 1)).find? (fun n => dmaFlagAfter events n)
    with _ | n
  · rw [hf] at h
    simp at h
  · rw [hf] at h
    have hp : dmaFlagAfter events n = true := List.find?_some hf
    simp only [Option.map_some'] at h
    rw [← Option.some.inj h]
    exact ⟨hp, dmaFlagAfter_true_of_complete events n hp, rfl,
      Nat.le_of_lt (by norm_num [delay_microseconds])⟩

/-- C3 witness: the conclusion at the delivery that completes on the
first spin, with fuel 1. -/
theorem C3_send_blocks_witness :
    dmaFlagAfter allComplete 1 = true ∧
    (∃ m, m < 1 ∧ allComplete m = some DMAC_TRANSFER_EVENT.complete) ∧
    (100 : Nat) = delay_microseconds 100 ∧ (80 : Nat) ≤ 100 :=
  C3_send_blocks_until_complete_then_gap allComplete 1
    { wait_iterations := 1, reset_gap_us := 100 } (by decide)

/-! ## Helper lemmas about the debounce state machine -/


theorem u32_sub_of_le {a b : Nat} (hba : b ≤ a) (ha : a < U32_MOD) :
    u32_sub a b = a - b := by
  simp only [u32_sub, U32_MOD] at *
  omega

theorem dsun_step_stable (raw : Bool) (cur prev : dsun_state_t)
    (lc tc : Nat)
    (hsame : (if raw then dsun_state_t.objectDetected
      else dsun_state_t.noObject) = cur)
    (hbound : tc + 1 < U32_MOD) :
    dsun_get_state raw ⟨cur, prev, lc, tc, true⟩ =
      (⟨cur, prev, (tc + 1) / 1000, tc + 1, true⟩, cur) := by
  have hmod : (tc + 1) % U32_MOD = tc + 1 := Nat.mod_eq_of_lt hbound
  simp [dsun_get_state, get_system_time_ms, hmod, hsame]

theorem dsun_step_reject (raw : Bool) (cur prev : dsun_state_t)
    (lc tc : Nat)
    (hdiff : (if raw then dsun_state_t.objectDetected
      else dsun_state_t.noObject) ≠ cur)
    (hbound : tc + 1 < U32_MOD)
    (hlc : lc ≤ (tc + 1) / 1000)
    (hwin : (tc + 1) / 1000 < lc + DSUN_DEBOUNCE_MS) :
    dsun_get_state raw ⟨cur, prev, lc, tc, true⟩ =
      (⟨cur, prev, lc, tc + 1, true⟩, cur) := by
  have hmod : (tc + 1) % U32_MOD = tc + 1 := Nat.mod_eq_of_lt hbound
  have hdivb : (tc + 1) / 1000 < U32_MOD := by
    have := Nat.div_le_self (tc + 1) 1000
    omega
  have hcond : ¬ DSUN_DEBOUNCE_MS ≤ u32_sub ((tc + 1) / 1000) lc := by
    rw [u32_sub_of_le hlc hdivb]
    omega
  simp [dsun_get_state, get_system_time_ms, hmod, hdiff, hcond]

theorem dsun_step_accept (raw : Bool) (cur prev : dsun_state_t)
    (lc tc : Nat)
    (hdiff : (if raw then dsun_state_t.objectDetected
      else dsun_state_t.noObject) ≠ cur)
    (hbound : tc + 1 < U32_MOD)
    (hlc : lc ≤ (tc + 1) / 1000)
    (hwin : lc + DSUN_DEBOUNCE_MS ≤ (tc + 1) / 1000) :
    dsun_get_state raw ⟨cur, prev, lc, tc, true⟩ =
      (⟨if raw then dsun_state_t.objectDetected else dsun_state_t.noObject,
        cur, (tc + 1) / 1000, tc + 1, true⟩,
       if raw then dsun_state_t.objectDetected
         else dsun_state_t.noObject) := by
  have hmod : (tc + 1) % U32_MOD = tc + 1 := Nat.mod_eq_of_lt hbound
  have hdivb : (tc + 1) / 1000 < U32_MOD := by
    have := Nat.div_le_self (tc + 1) 1000
    omega
  have hcond : DSUN_DEBOUNCE_MS ≤ u32_sub ((tc + 1) / 1000) lc := by
    rw [u32_sub_of_le hlc hdivb]
    omega
  simp [dsun_get_state, get_system_time_ms, hmod, hdiff, hcond]

theorem runPolls_cons (s : DsunState) (r : Bool) (rs : List Bool) :
    runPolls s (r :: rs) = runPolls ((dsun_get_state r s).1) rs := rfl

theorem runPolls_append (s : DsunState) (l₁ l₂ : List Bool) :
    runPolls s (l₁ ++ l₂) = runPolls (runPolls s l₁) l₂ :=
  List.foldl_append _ _ _ _

theorem runPolls_cons_of (r : Bool) (s s' : DsunState) (v : dsun_state_t)
    (rs : List Bool) (h : dsun_get_state r s = (s', v)) :
    runPolls s (r :: rs) = runPolls s' rs := by
  rw [runPolls_cons, h]

theorem dsun_object_detected_of (r : Bool) (s s' : DsunState)
    (v : dsun_state_t) (h : dsun_get_state r s = (s', v)) :
    dsun_object_detected r s = (s', v == dsun_state_t.objectDetected) := by
  unfold dsun_object_detected
  rw [h]

theorem dsun_object_just_detected_of (r : Bool) (s s' : DsunState)
    (v : dsun_state_t) (h : dsun_get_state r s = (s', v)) :
    dsun_object_just_detected r s =
      (s', (s'.previous_state == dsun_state_t.noObject &&
        (v == dsun_state_t.objectDetected))) := by
  unfold dsun_object_just_detected
  rw [h]

theorem runPolls_replicate_reject (raw : Bool) :
    ∀ (n : Nat) (cur prev : dsun_state_t) (lc tc : Nat),
      (if raw then dsun_state_t.objectDetected
        else dsun_state_t.noObject) ≠ cur →
      tc + n < U32_MOD →
      lc ≤ (tc + 1) / 1000 →
      (∀ j, j < n → (tc + j + 1) / 1000 < lc + DSUN_DEBOUNCE_MS) →
      runPolls ⟨cur, prev, lc, tc, true⟩ (List.replicate n raw) =
        ⟨cur, prev, lc, tc + n, true⟩
  | 0, cur, prev, lc, tc, _, _, _, _ => rfl
  | n + 1, cur, prev, lc, tc, hdiff, hbound, hlc, hwin => by
    rw [List.replicate_succ,
      runPolls_cons_of raw _ _ _ _
        (dsun_step_reject raw cur prev lc tc hdiff (by omega) hlc
          (by have := hwin 0 (by omega); omega)),
      runPolls_replicate_reject raw n cur prev lc (tc + 1) hdiff
        (by omega)
        (le_trans hlc (Nat.div_le_div_right (by omega)))
        (fun j hj => by have := hwin (j + 1) (by omega); omega)]
    have h : tc + 1 + n = tc + (n + 1) := by omega
    rw [h]

theorem runPolls_replicate_stable (raw : Bool) :
    ∀ (n : Nat) (cur prev : dsun_state_t) (lc tc : Nat),
      (if raw then dsun_state_t.objectDetected
        else dsun_state_t.noObject) = cur →
      tc + n + 1 < U32_MOD →
      runPolls ⟨cur, prev, lc, tc, true⟩ (List.replicate (n + 1) raw) =
        ⟨cur, prev, (tc + n + 1) / 1000, tc + n + 1, true⟩
  | 0, cur, prev, lc, tc, hsame, hbound => by
    rw [List.replicate_succ,
      runPolls_cons_of raw _ _ _ _
        (dsun_step_stable raw cur prev lc tc hsame (by omega))]
    rfl
  | n + 1, cur, prev, lc, tc, hsame, hbound => by
    rw [List.replicate_succ,
      runPolls_cons_of raw _ _ _ _
        (dsun_step_stable raw cur prev lc tc hsame (by omega)),
      runPolls_replicate_stable raw n cur prev ((tc + 1) / 1000) (tc + 1)
        hsame (by omega)]
    have h : tc + 1 + n + 1 = tc + (n + 1) + 1 := by omega
    rw [h]

theorem runTrue_inv (p : dsun_state_t) (u c : Nat) (hu : u = c / 1000) :
    ∀ j, c + j < U32_MOD →
      runPolls
          ⟨dsun_state_t.noObject, p, u, c, true⟩ (List.replicate j true) =
        if (c + j) / 1000 < u + DSUN_DEBOUNCE_MS
        then ⟨dsun_state_t.noObject, p, u, c + j, true⟩
        else ⟨dsun_state_t.objectDetected, dsun_state_t.noObject,
          (c + j) / 1000, c + j, true⟩
  | 0, hb => by
    rw [if_pos (by subst hu; simp only [DSUN_DEBOUNCE_MS]; omega)]
    rfl
  | j + 1, hb => by
    have hcj : c + (j + 1) = c + j + 1 := by omega
    rw [hcj, List.replicate_succ' j true, runPolls_append,
      runTrue_inv p u c hu j (by omega)]
    by_cases hj : (c + j) / 1000 < u + DSUN_DEBOUNCE_MS
    · rw [if_pos hj]
      by_cases hj1 : (c + j + 1) / 1000 < u + DSUN_DEBOUNCE_MS
      · rw [if_pos hj1,
          runPolls_cons_of true _ _ _ _
            (dsun_step_reject true dsun_state_t.noObject p u (c + j)
              (by decide) (by omega)
              (by subst hu; exact Nat.div_le_div_right (by omega)) hj1)]
        rfl
      · rw [if_neg hj1,
          runPolls_cons_of true _ _ _ _
            (dsun_step_accept true dsun_state_t.noObject p u (c + j)
              (by decide) (by omega)
              (by subst hu; exact Nat.div_le_div_right (by omega))
              (by omega))]
        rfl
    · rw [if_neg hj]
      have hj1 : ¬ (c + j + 1) / 1000 < u + DSUN_DEBOUNCE_MS := by
        have : (c + j) / 1000 ≤ (c + j + 1) / 1000 :=
          Nat.div_le_div_right (by omega)
        omega
      rw [if_neg hj1,
        runPolls_cons_of true _ _ _ _
          (dsun_step_stable true dsun_state_t.objectDetected
            dsun_state_t.noObject ((c + j) / 1000) (c + j) rfl
            (by omega))]
      rfl

/-! ## Claim theorems (proximity debouncer) -/

/-- C8 counterexample: boot, then dsun_sensor_init with the line low,
then 998 polls reading false (counters 2..999, all at time 0 ms), then
49000 polls reading true (counters 1000..49999, times 1..49 ms).  Every
poll from counter 1000 on reads true and every poll before reads false,
so a raw signal that flips exactly at t = 1 ms and stays true is
consistent with this sequence.  The claim then requires isDetected to
stay false at every poll before t + DSUN_DEBOUNCE_MS = 51 ms, but the
next poll — at counter 50000, time 50 ms — already returns true: the
window is measured from last_change_time, still 0 from the init, not
from the flip. -/
theorem C8_counterexample :
    (dsun_object_detected true
        (runPolls (dsun_sensor_init false 0)
          (List.replicate 998 false ++ List.replicate 49000 true))).2
      = true ∧
    (dsun_object_detected true
        (runPolls (dsun_sensor_init false 0)
          (List.replicate 998 false ++
            List.replicate 49000 true))).1.time_counter = 50000 ∧
    50000 / 1000 < 1 + DSUN_DEBOUNCE_MS := by
  have h0 : dsun_sensor_init false 0 =
      ⟨dsun_state_t.stateUnknown, dsun_state_t.stateUnknown, 0, 1,
        true⟩ := by decide
  have h1 : runPolls
      ⟨dsun_state_t.stateUnknown, dsun_state_t.stateUnknown, 0, 1, true⟩
      (List.replicate 998 false) =
      ⟨dsun_state_t.stateUnknown, dsun_state_t.stateUnknown, 0, 999,
        true⟩ := by
    have h := runPolls_replicate_reject false 998
      dsun_state_t.stateUnknown dsun_state_t.stateUnknown 0 1
      (by decide) (by decide) (by decide)
      (fun j hj => by simp only [DSUN_DEBOUNCE_MS]; omega)
    norm_num at h
    exact h
  have h2 : runPolls
      ⟨dsun_state_t.stateUnknown, dsun_state_t.stateUnknown, 0, 999, true⟩
      (List.replicate 49000 true) =
      ⟨dsun_state_t.stateUnknown, dsun_state_t.stateUnknown, 0, 49999,
        true⟩ := by
    have h := runPolls_replicate_reject true 49000
      dsun_state_t.stateUnknown dsun_state_t.stateUnknown 0 999
      (by decide) (by decide) (by decide)
      (fun j hj => by simp only [DSUN_DEBOUNCE_MS]; omega)
    norm_num at h
    exact h
  rw [h0, runPolls_append, h1, h2]
  refine ⟨by decide, by decide, by decide⟩

/-- C8 (amended): the debounce window is anchored at the last poll whose
raw reading still matched the current debounced state, not at the
instant the signal flipped.  From a NoObject state, after k false polls
(the last one at time u = (c+k)/1000, refreshing last_change_time) and
then only true polls, the query poll returns ObjectDetected exactly when
its own time has reached u + DSUN_DEBOUNCE_MS; since the flip can occur
up to one counter tick after the last false poll, detection can land up
to one millisecond before flip-time + DSUN_DEBOUNCE_MS. -/
theorem C8_debounce_window_from_last_matching_poll
    (p : dsun_state_t) (lc c k j : Nat) (hk : 1 ≤ k)
    (hbound : c + k + j + 1 < U32_MOD) :
    ((dsun_object_detected true
        (runPolls ⟨dsun_state_t.noObject, p, lc, c, true⟩
          (List.replicate k false ++ List.replicate j true))).2 = true)
      ↔ (c + k) / 1000 + DSUN_DEBOUNCE_MS ≤ (c + k + j + 1) / 1000 := by
  obtain ⟨k', rfl⟩ : ∃ k', k = k' + 1 := ⟨k - 1, by omega⟩
  have e1 : c + (k' + 1) = c + k' + 1 := by omega
  rw [e1] at hbound ⊢
  rw [runPolls_append,
    runPolls_replicate_stable false k' dsun_state_t.noObject p lc c
      (by decide) (by omega),
    runTrue_inv p ((c + k' + 1) / 1000) (c + k' + 1) rfl j (by omega)]
  by_cases hj : (c + k' + 1 + j) / 1000 <
      (c + k' + 1) / 1000 + DSUN_DEBOUNCE_MS
  · rw [if_pos hj]
    by_cases hacc : (c + k' + 1) / 1000 + DSUN_DEBOUNCE_MS ≤
        (c + k' + 1 + j + 1) / 1000
    · rw [dsun_object_detected_of true _ _ _
        (dsun_step_accept true dsun_state_t.noObject p
          ((c + k' + 1) / 1000) (c + k' + 1 + j) (by decide) (by omega)
          (Nat.div_le_div_right (by omega)) (by omega))]
      simp [hacc]
    · rw [dsun_object_detected_of true _ _ _
        (dsun_step_reject true dsun_state_t.noObject p
          ((c + k' + 1) / 1000) (c + k' + 1 + j) (by decide) (by omega)
          (Nat.div_le_div_right (by omega)) (by omega))]
      simp [hacc]
  · rw [if_neg hj]
    have hacc : (c + k' + 1) / 1000 + DSUN_DEBOUNCE_MS ≤
        (c + k' + 1 + j + 1) / 1000 := by
      have h : (c + k' + 1 + j) / 1000 ≤ (c + k' + 1 + j + 1) / 1000 :=
        Nat.div_le_div_right (by omega)
      omega
    rw [dsun_object_detected_of true _ _ _
      (dsun_step_stable true dsun_state_t.objectDetected
        dsun_state_t.noObject ((c + k' + 1 + j) / 1000) (c + k' + 1 + j)
        (by decide) (by omega))]
    simp [hacc]

/-- C8 witness: the amended claim at one false poll from counter 0
followed immediately by the query; the query time 0 has not reached
0 + DSUN_DEBOUNCE_MS, so the detected result is false on both sides. -/
theorem C8_debounce_window_witness :
    ((dsun_object_detected true
        (runPolls
          ⟨dsun_state_t.noObject, dsun_state_t.stateUnknown, 0, 0, true⟩
          (List.replicate 1 false ++ List.replicate 0 true))).2 = true)
      ↔ (0 + 1) / 1000 + DSUN_DEBOUNCE_MS ≤ (0 + 1 + 0 + 1) / 1000 :=
  C8_debounce_window_from_last_matching_poll
    dsun_state_t.stateUnknown 0 0 1 0 (by decide) (by decide)

/-- C9: the code contradicts its own header documentation.  In the run
below the accepted NoObject to ObjectDetected transition lands at the
poll with counter 100000, and dsun_object_just_detected returns true
there — but it returns true again at the very next poll (counter
100001), because previous_state keeps the value NoObject until the next
accepted transition.  The doc of dsun_object_just_detected promises true
only on the first detection. -/
theorem C9_just_detected_repeats :
    (dsun_object_just_detected true
        (runPolls (dsun_sensor_init false 0)
          (List.replicate 49998 false ++
            ([false] ++ List.replicate 49999 true)))).2 = true ∧
    (dsun_object_just_detected true
        (dsun_object_just_detected true
          (runPolls (dsun_sensor_init false 0)
            (List.replicate 49998 false ++
              ([false] ++ List.replicate 49999 true)))).1).2 = true := by
  have h0 : dsun_sensor_init false 0 =
      ⟨dsun_state_t.stateUnknown, dsun_state_t.stateUnknown, 0, 1,
        true⟩ := by decide
  have h1 : runPolls
      ⟨dsun_state_t.stateUnknown, dsun_state_t.stateUnknown, 0, 1, true⟩
      (List.replicate 49998 false) =
      ⟨dsun_state_t.stateUnknown, dsun_state_t.stateUnknown, 0, 49999,
        true⟩ := by
    have h := runPolls_replicate_reject false 49998
      dsun_state_t.stateUnknown dsun_state_t.stateUnknown 0 1
      (by decide) (by decide) (by decide)
      (fun j hj => by simp only [DSUN_DEBOUNCE_MS]; omega)
    norm_num at h
    exact h
  have h2 : runPolls
      ⟨dsun_state_t.stateUnknown, dsun_state_t.stateUnknown, 0, 49999,
        true⟩ [false] =
      ⟨dsun_state_t.noObject, dsun_state_t.stateUnknown, 50, 50000,
        true⟩ := by decide
  have h3 : runPolls
      ⟨dsun_state_t.noObject, dsun_state_t.stateUnknown, 50, 50000, true⟩
      (List.replicate 49999 true) =
      ⟨dsun_state_t.noObject, dsun_state_t.stateUnknown, 50, 99999,
        true⟩ := by
    have h := runPolls_replicate_reject true 49999
      dsun_state_t.noObject dsun_state_t.stateUnknown 50 50000
      (by decide) (by decide) (by decide)
      (fun j hj => by simp only [DSUN_DEBOUNCE_MS]; omega)
    norm_num at h
    exact h
  rw [h0, runPolls_append, h1, runPolls_append, h2, h3]
  constructor
  · decide
  · show (dsun_object_just_detected true
      ⟨dsun_state_t.objectDetected, dsun_state_t.noObject, 100, 100000,
        true⟩).2 = true
    decide

/-- C10: a debounced state query before the sensor setup routine has
ever run returns DSUN_STATE_UNKNOWN and leaves every piece of sensor
state — current state, previous state, last-change timestamp and the
time counter — unchanged, whatever the raw pin reads. -/
theorem C10_query_before_setup (raw : Bool) (s : DsunState)
    (h : s.sensor_ready = false) :
    dsun_get_state raw s = (s, dsun_state_t.stateUnknown) := by
  simp [dsun_get_state, h]

/-- C10 witness: the claim at a concrete not-yet-ready state with the
pin high. -/
theorem C10_query_before_setup_witness :
    dsun_get_state true
        ⟨dsun_state_t.noObject, dsun_state_t.objectDetected, 7, 42,
          false⟩ =
      (⟨dsun_state_t.noObject, dsun_state_t.objectDetected, 7, 42,
        false⟩, dsun_state_t.stateUnknown) :=
  C10_query_before_setup true _ rfl

end CoffinReborn
